import Mathlib

/-!
Verification of the SQL Safety Gateway of the credit-analytics chatbot.

Shallow embedding of:
  * `src/utils/sql_validator.py` (`SQLValidator`): syntax gate, denylist gate,
    statement-kind gate, formatting, guardrail rewrite;
  * `src/tools/database_query_tool.py`: `_execute_with_retry`,
    `_convert_decimals_to_float`, `query_database`;
  * `src/config.py` (`GuardrailsConfig`).

The SQL parser (`sqlglot`) is an external library; it is modelled as an
abstract parse oracle (`Parser`), and properties that depend on its good
behaviour take that behaviour as an explicit hypothesis (`ParserTrust`).
-/

namespace Gateway

/-- A regex word character: letter, digit or underscore (ASCII). -/
def isWordChar (c : Char) : Bool := c.isAlphanum || c == '_'

/-- Is the position after `prev` a left word boundary for a word starting
with a word character? `none` is the start of the string. -/
def boundaryBefore : Option Char → Bool
  | Option.none => true
  | Option.some c => !isWordChar c

/-- Does `w` occur at the head of `s`, followed by a right word boundary
(end of string or a non-word character)? -/
def headWordMatch : List Char → List Char → Bool
  | [], [] => true
  | [], c :: _ => !isWordChar c
  | _ :: _, [] => false
  | a :: w, b :: s => a == b && headWordMatch w s

/-- Scan `s` for an occurrence of `w` delimited by word boundaries on both
sides; `prev` is the character just before the current position. This is
`re.search(r"\b" + w + r"\b", s)` for a pattern `w` made of word characters. -/
def scanWholeWord (w : List Char) : List Char → Option Char → Bool
  | [], prev => boundaryBefore prev && headWordMatch w []
  | c :: rest, prev =>
      (boundaryBefore prev && headWordMatch w (c :: rest)) || scanWholeWord w rest (Option.some c)

/-- Python regex search `re.search(r"\b" + w + r"\b", s) is not None` for an alphanumeric pattern `w`. -/
def containsWholeWord (s w : String) : Bool := scanWholeWord w.data s.data Option.none

/-- Python substring membership `w in s` on character lists. -/
def containsSubstrL (w : List Char) : List Char → Bool
  | [] => w.isEmpty
  | c :: rest => w.isPrefixOf (c :: rest) || containsSubstrL w rest

/-- Python substring membership `w in s`. -/
def containsSubstr (s w : String) : Bool := containsSubstrL w.data s.data

/-- Python `str.upper()` (character-wise uppercasing). -/
def strUpper (s : String) : String := ⟨s.data.map Char.toUpper⟩

/-- Python `str.lower()` (character-wise lowercasing). -/
def strLower (s : String) : String := ⟨s.data.map Char.toLower⟩

/-- Python `s.rstrip(';')`: remove trailing semicolons. -/
def rstripSemis (s : String) : String :=
  ⟨(s.data.reverse.dropWhile (fun c => c == ';')).reverse⟩

/-- Mirror of `GuardrailsConfig` from `src/config.py`. -/
structure GuardrailsConfig where
  kAnonymity : Nat
  defaultLimit : Nat
  maxRowsReturn : Nat
  queryTimeoutSeconds : Nat
  blockedOperations : List String
  maxRetryAttempts : Nat

/-- The default `GuardrailsConfig` values from `src/config.py`. -/
def defaultGuardrails : GuardrailsConfig :=
  ⟨20, 100, 10000, 10,
   ["DROP", "DELETE", "UPDATE", "INSERT", "CREATE", "ALTER", "TRUNCATE", "GRANT", "REVOKE"],
   3⟩

/-- Mirror of `self.blocked_ops = [op.upper() for op in self.guardrails.blocked_operations]`
(from `SQLValidator.__init__`). -/
def blockedOps (gr : GuardrailsConfig) : List String := gr.blockedOperations.map strUpper

/-- The slice of a `sqlglot` expression tree consumed by the validator. -/
structure Ast where
  key : String
  hasLimitArg : Bool
  render : String
  prettyOk : Bool
  pretty : String

/-- Outcome of `sqlglot.parse_one`. -/
inductive ParseOutcome where
  | ok (a : Ast)
  | noStatement
  | parseError (msg : String)
  | otherError (msg : String)

/-- The external parser, as a deterministic oracle. -/
structure Parser where
  parse : String → ParseOutcome

/-- The rejection taxonomy. Every rejection in the source is a
`SQLValidationError`; the constructor records which gate raised it:
`syntaxError` for the three raise sites of `_validate_syntax`,
`blockedOperation` for `_check_blocked_operations` (carrying the matched
keyword), `disallowedType` for `_ensure_read_only` (carrying the detected
statement kind, lowercased). -/
inductive RejectReason where
  | syntaxError (msg : String)
  | blockedOperation (op : String)
  | disallowedType (kind : String)
deriving DecidableEq

/-- Mirror of `SQLValidator._check_blocked_operations`: uppercase the statement text
and return the first denied keyword that occurs as a whole word
(`re.search(r"\b" + op + r"\b", sql_upper)`), if any. -/
def checkBlockedOperations (gr : GuardrailsConfig) (sql : String) : Option String :=
  (blockedOps gr).find? (fun op => containsWholeWord (strUpper sql) op)

/-- The allowed root statement kinds of `SQLValidator._ensure_read_only`. -/
def allowedTypes : List String := ["select", "union", "with"]

/-- Mirror of `SQLValidator._ensure_read_only` on the parsed tree: `parsed.key.lower()`
must be in `{"select", "union", "with"}`; otherwise the detected kind is
reported. (The source re-parses the same string; the oracle is
deterministic, so the tree is the one the syntax gate produced.) -/
def ensureReadOnly (a : Ast) : Option String :=
  let k := strLower a.key
  if allowedTypes.contains k then Option.none else Option.some k

/-- Mirror of `SQLValidator._format_sql`: re-parse and pretty-print; on any failure
return the original text. -/
def formatSql (p : Parser) (sql : String) : String :=
  match p.parse sql with
  | ParseOutcome.ok a => if a.prettyOk then a.pretty else sql
  | _ => sql

/-- Mirror of `SQLValidator._has_aggregation`: `parsed.sql().upper()` contains one of
the aggregation markers as a substring. -/
def hasAggregation (a : Ast) : Bool :=
  ["COUNT(", "SUM(", "AVG(", "MIN(", "MAX(", "GROUP BY"].any
    (fun m => containsSubstr (strUpper a.render) m)

/-- Mirror of `SQLValidator._apply_guardrails`: re-parse; if the statement has no
`limit` arg and no aggregation marker, append
`f"{sql.rstrip(';')} LIMIT {default_limit}"`; on parse failure return the
input unchanged. -/
def applyGuardrails (p : Parser) (gr : GuardrailsConfig) (sql : String) : String :=
  match p.parse sql with
  | ParseOutcome.ok a =>
      if !a.hasLimitArg && !hasAggregation a then
        rstripSemis sql ++ " LIMIT " ++ toString gr.defaultLimit
      else sql
  | _ => sql

/-- Mirror of `SQLValidator.validate`: the five gates in source order. Success returns
the guardrail-augmented formatted SQL; the first failing gate raises.
The messages of the syntax gate mirror the three raise paths of
`_validate_syntax` (note that its `None` branch is re-wrapped by the
generic `except Exception` handler of the same function). -/
def validate (p : Parser) (gr : GuardrailsConfig) (sql : String) : Except RejectReason String :=
  match p.parse sql with
  | ParseOutcome.ok a =>
      match checkBlockedOperations gr sql with
      | Option.some op => Except.error (RejectReason.blockedOperation op)
      | Option.none =>
          match ensureReadOnly a with
          | Option.some k => Except.error (RejectReason.disallowedType k)
          | Option.none => Except.ok (applyGuardrails p gr (formatSql p sql))
  | ParseOutcome.noStatement =>
      Except.error (RejectReason.syntaxError "Erro ao validar SQL: Query SQL vazia ou inválida")
  | ParseOutcome.parseError m =>
      Except.error (RejectReason.syntaxError ("Erro de sintaxe SQL: " ++ m))
  | ParseOutcome.otherError m =>
      Except.error (RejectReason.syntaxError ("Erro ao validar SQL: " ++ m))

/-- A Python value as seen by the database-query tool. -/
inductive PyVal where
  | dict : List (String × PyVal) → PyVal
  | list : List PyVal → PyVal
  | tuple : List PyVal → PyVal
  | dec : ℚ → PyVal
  | flt : ℚ → PyVal
  | intV : Int → PyVal
  | strV : String → PyVal
  | boolV : Bool → PyVal
  | noneV : PyVal

mutual

/-- Mirror of `_convert_decimals_to_float`: `Decimal` leaves become floats, dicts and
lists are rebuilt key-wise/element-wise, everything else (tuples included)
is returned as-is. -/
def convertDecimalsToFloat : PyVal → PyVal
  | PyVal.dec q => PyVal.flt q
  | PyVal.dict es => PyVal.dict (convertEntries es)
  | PyVal.list xs => PyVal.list (convertElems xs)
  | v => v

/-- The dict comprehension `{k: _convert_decimals_to_float(v) for k, v in data.items()}`. -/
def convertEntries : List (String × PyVal) → List (String × PyVal)
  | [] => []
  | (k, v) :: rest => (k, convertDecimalsToFloat v) :: convertEntries rest

/-- The list comprehension `[_convert_decimals_to_float(item) for item in data]`. -/
def convertElems : List PyVal → List PyVal
  | [] => []
  | v :: rest => convertDecimalsToFloat v :: convertElems rest

end

mutual

/-- Does the value contain a `Decimal` leaf anywhere (looking inside every
container, tuples included)? -/
def hasDecimal : PyVal → Bool
  | PyVal.dec _ => true
  | PyVal.dict es => hasDecimalEntries es
  | PyVal.list xs => hasDecimalElems xs
  | PyVal.tuple xs => hasDecimalElems xs
  | _ => false

def hasDecimalEntries : List (String × PyVal) → Bool
  | [] => false
  | (_, v) :: rest => hasDecimal v || hasDecimalEntries rest

def hasDecimalElems : List PyVal → Bool
  | [] => false
  | v :: rest => hasDecimal v || hasDecimalElems rest

end

mutual

/-- Is the value built from dicts, lists, `Decimal` leaves and plain leaves
only (no tuple-like container anywhere)? -/
def tupleFree : PyVal → Bool
  | PyVal.tuple _ => false
  | PyVal.dict es => tupleFreeEntries es
  | PyVal.list xs => tupleFreeElems xs
  | _ => true

def tupleFreeEntries : List (String × PyVal) → Bool
  | [] => true
  | (_, v) :: rest => tupleFree v && tupleFreeEntries rest

def tupleFreeElems : List PyVal → Bool
  | [] => true
  | v :: rest => tupleFree v && tupleFreeElems rest

end

mutual

/-- Modelled from the spec: the Result Normalizer as §4.4 describes it — a
structure-preserving deep transform that replaces every decimal leaf, at
every depth and inside every container, with its floating-point value, and
passes all other leaves through unchanged. It differs from the source
`_convert_decimals_to_float` only on containers the source does not
special-case (`tuple`). -/
def eraseDecimals : PyVal → PyVal
  | PyVal.dec q => PyVal.flt q
  | PyVal.dict es => PyVal.dict (eraseEntries es)
  | PyVal.list xs => PyVal.list (eraseElems xs)
  | PyVal.tuple xs => PyVal.tuple (eraseElems xs)
  | v => v

def eraseEntries : List (String × PyVal) → List (String × PyVal)
  | [] => []
  | (k, v) :: rest => (k, eraseDecimals v) :: eraseEntries rest

def eraseElems : List PyVal → List PyVal
  | [] => []
  | v :: rest => eraseDecimals v :: eraseElems rest

end

mutual

/-- Is the value free of dicts, lists and `Decimal`s (at every depth,
tuples included)? On such values the normalizer hits only its final
`return data` branch. -/
def dictListDecFree : PyVal → Bool
  | PyVal.dec _ => false
  | PyVal.dict _ => false
  | PyVal.list _ => false
  | PyVal.tuple xs => dictListDecFreeElems xs
  | _ => true

def dictListDecFreeElems : List PyVal → Bool
  | [] => true
  | v :: rest => dictListDecFree v && dictListDecFreeElems rest

end

/-- The collaborators of `_execute_with_retry`: `sql_validator.validate`
(returns the validated SQL or raises, with message), `db_manager.execute_query`
(returns rows or raises, with message), and `_correct_sql_with_llm`
taking failed SQL, error message and the original question. -/
structure Runtime where
  validateR : String → Except String String
  executeR : String → Except String (List PyVal)
  correct : String → String → String → String

/-- One validate-then-execute cycle of the retry loop body. -/
def attemptOnce (rt : Runtime) (sql : String) : Except String (List PyVal) :=
  match rt.validateR sql with
  | Except.error e => Except.error e
  | Except.ok vsql => rt.executeR vsql

/-- The aggregated message `f"Falha após {max_retries} tentativas. Último erro: {last_error}"`. -/
def finalMsg (maxRetries : Nat) (lastError : Option String) : String :=
  "Falha após " ++ toString maxRetries ++ " tentativas. Último erro: " ++
    (match lastError with
     | Option.some e => e
     | Option.none => "None")

/-- The `for attempt in range(max_retries)` loop of `_execute_with_retry`,
with `fuel` iterations left and `lastError` accumulated. On the last failed
attempt the loop breaks and the aggregated error is raised; otherwise the
statement is corrected and retried. -/
def retryLoop (rt : Runtime) (question : String) (maxRetries : Nat) :
    Nat → String → Option String → Except String (List PyVal)
  | 0, _, lastError => Except.error (finalMsg maxRetries lastError)
  | Nat.succ fuel, sql, _ =>
      match attemptOnce rt sql with
      | Except.ok rows => Except.ok rows
      | Except.error e =>
          if fuel == 0 then Except.error (finalMsg maxRetries (Option.some e))
          else retryLoop rt question maxRetries fuel (rt.correct sql e question) (Option.some e)

/-- Mirror of `_execute_with_retry(sql, question, max_retries)`. -/
def executeWithRetry (rt : Runtime) (sql question : String) (maxRetries : Nat) :
    Except String (List PyVal) :=
  retryLoop rt question maxRetries maxRetries sql Option.none

/-- The sequence of SQL statements attempted by `_execute_with_retry`
(one entry per validate/execute cycle actually performed). -/
def retryTrace (rt : Runtime) (question : String) : Nat → String → List String
  | 0, _ => []
  | Nat.succ fuel, sql =>
      match attemptOnce rt sql with
      | Except.ok _ => [sql]
      | Except.error e =>
          if fuel == 0 then [sql]
          else sql :: retryTrace rt question fuel (rt.correct sql e question)

/-- The metadata artifact built by `query_database` on success. -/
structure QueryArtifact where
  sql : String
  data : List PyVal
  rowCount : Nat
  truncated : Bool

/-- Mirror of `query_database`, success and failure paths: generate SQL from the
question (`gen` models `_generate_sql_with_llm`, markdown already
stripped), run it through `_execute_with_retry` with the default budget of
3 attempts, normalize the rows, and build the metadata from the initially
generated statement, the first 100 converted rows, the full row count and
the truncation flag. On failure return the error message and the SQL. -/
def queryDatabase (gen : String → String) (rt : Runtime) (question : String) :
    Except (String × String) QueryArtifact :=
  let sql := gen question
  match executeWithRetry rt sql question 3 with
  | Except.ok rows =>
      Except.ok
        ⟨sql, (convertElems rows).take 100, rows.length, decide (100 < rows.length)⟩
  | Except.error e => Except.error ("Erro ao processar consulta: " ++ e, sql)

/-- Parse-oracle tree for the C1 witness (a parseable statement whose root
kind is irrelevant: the denylist gate fires first). -/
def c1Ast : Ast := ⟨"drop", false, "", false, ""⟩

/-- Parse oracle for the C1 witness. -/
def c1Parser : Parser := ⟨fun _ => ParseOutcome.ok c1Ast⟩

/-- Parse-oracle tree for the C2 witness: `sqlglot.parse_one` returns the
first statement of a stacked input, so the root kind is `select` for the
injection example. -/
def c2Ast : Ast := ⟨"select", false, "", false, ""⟩

/-- Parse oracle for the C2 witness. -/
def c2Parser : Parser := ⟨fun _ => ParseOutcome.ok c2Ast⟩

/-- Collaborators for the C4 witness: validation always fails, correction
returns the statement unchanged (a generator that keeps producing the same
invalid statement). -/
def c4Runtime : Runtime :=
  ⟨fun _ => Except.error "invalid SQL", fun _ => Except.ok [], fun s _ _ => s⟩

/-- The spec example `{"a": [Decimal("1.5"), {"b": Decimal("2.25")}]}`. -/
def c8Example : PyVal :=
  PyVal.dict [("a", PyVal.list [PyVal.dec (3 / 2), PyVal.dict [("b", PyVal.dec (9 / 4))]])]

/-- The spec example's expected image `{"a": [1.5, {"b": 2.25}]}`. -/
def c8Expected : PyVal :=
  PyVal.dict [("a", PyVal.list [PyVal.flt (3 / 2), PyVal.dict [("b", PyVal.flt (9 / 4))]])]

/-- Parse-oracle tree used by the C5 witness: a plain unlimited,
non-aggregated SELECT. -/
def c5Ast : Ast := ⟨"select", false, "SELECT * FROM credit_train", false, ""⟩

/-- Parse oracle used by the C5 witness. -/
def c5Parser : Parser := ⟨fun _ => ParseOutcome.ok c5Ast⟩

/-- Parse oracle used by the C7 witness: fails on every input the way
`sqlglot.parse_one` fails on blank input. -/
def c7Parser : Parser := ⟨fun _ => ParseOutcome.parseError "No expression was parsed"⟩

/-- The behaviour the source trusts of the external parser/renderer pair
(`sqlglot`): pretty-printing a parsed statement yields a string that parses
back to the same statement kind and introduces no new whole-word keyword
occurrence, and appending a `LIMIT` clause to a parseable statement leaves
it parseable with the same statement kind. -/
structure ParserTrust (p : Parser) : Prop where
  prettyRoundTrip : ∀ s a, p.parse s = ParseOutcome.ok a → a.prettyOk = true →
    ∃ b, p.parse a.pretty = ParseOutcome.ok b ∧ strLower b.key = strLower a.key
  prettyNoNewWord : ∀ s a K, p.parse s = ParseOutcome.ok a → a.prettyOk = true →
    containsWholeWord (strUpper s) K = false → containsWholeWord (strUpper a.pretty) K = false
  limitAppendParses : ∀ f b, p.parse f = ParseOutcome.ok b →
    ∃ c, p.parse (rstripSemis f ++ " LIMIT " ++ toString defaultGuardrails.defaultLimit) =
      ParseOutcome.ok c ∧ strLower c.key = strLower b.key

/-- Parse oracle for the C3 witness: every string parses as a SELECT that
already carries a limit and whose pretty-printer is unavailable (so
formatting falls back to the input text). -/
def c3Parser : Parser := ⟨fun s => ParseOutcome.ok ⟨"select", true, s, false, ""⟩⟩

/-- Parse tree of `SELECT 1 -- note` for the C6 counterexample: no limit,
no aggregation. -/
def c6AstA : Ast := ⟨"select", false, "SELECT 1 -- note", true, "SELECT 1 -- note"⟩

/-- Parse tree of `SELECT 1 -- note LIMIT 100` for the C6 counterexample:
the `LIMIT` sits inside the trailing line comment, so the parser reports
no limit argument (and no aggregation). -/
def c6AstB : Ast :=
  ⟨"select", false, "SELECT 1 -- note LIMIT 100", true, "SELECT 1 -- note LIMIT 100"⟩

/-- Parse oracle realizing the behaviour of `sqlglot` on the two statements
of the C6 counterexample. -/
def c6Parser : Parser :=
  ⟨fun s =>
    if s == "SELECT 1 -- note" then ParseOutcome.ok c6AstA
    else if s == "SELECT 1 -- note LIMIT 100" then ParseOutcome.ok c6AstB
    else ParseOutcome.parseError "invalid"⟩

/-- Parse tree for the C6 amended witness: a SELECT already carrying a
limit. -/
def c6wAst : Ast := ⟨"select", true, "SELECT 1 LIMIT 5", false, ""⟩

/-- Parse oracle for the C6 amended witness. -/
def c6wParser : Parser := ⟨fun _ => ParseOutcome.ok c6wAst⟩

/-- A result row with a `Decimal` value, for the C9 witness
(`{"taxa": Decimal("0.0850")}`). -/
def c9Row : PyVal := PyVal.dict [("taxa", PyVal.dec (17 / 200))]

/-- Collaborators for the C9 witness: the initially generated statement
`SQL0` fails validation, the corrected statement `SQL1` validates and
executes, returning one row. -/
def c9Runtime : Runtime :=
  ⟨fun s => if s == "SQL0" then Except.error "column does not exist" else Except.ok s,
   fun _ => Except.ok [c9Row],
   fun _ _ _ => "SQL1"⟩

/-- The generation step for the C9 witness: always produces `SQL0`. -/
def c9Gen : String → String := fun _ => "SQL0"

/-! ## Lemmas and claim theorems -/

/-- C1. Denylist word-boundary: on a parseable statement, if a denied
keyword `K` occurs in the text as a standalone whole-word token (matching
is done on the uppercased text, hence case-insensitively), `validate`
rejects with the blocked-operation error naming a denied keyword that does
occur as a whole word — and naming `K` itself whenever `K` is the only
denied keyword occurring; if no denied keyword occurs as a whole word
(e.g. it occurs only inside a longer identifier such as `DROPPED_FLAG`),
`validate` never rejects with a blocked-operation error. -/
theorem c1_denylist_word_boundary (p : Parser) (gr : GuardrailsConfig) (sql K : String) (a : Ast)
    (hok : p.parse sql = ParseOutcome.ok a) (hK : K ∈ blockedOps gr) :
    (containsWholeWord (strUpper sql) K = true →
       ∃ Kf, validate p gr sql = Except.error (RejectReason.blockedOperation Kf) ∧
         Kf ∈ blockedOps gr ∧ containsWholeWord (strUpper sql) Kf = true ∧
         ((∀ K2, K2 ∈ blockedOps gr → containsWholeWord (strUpper sql) K2 = true → K2 = K) →
            Kf = K)) ∧
    ((∀ K2, K2 ∈ blockedOps gr → containsWholeWord (strUpper sql) K2 = false) →
       ∀ op, validate p gr sql ≠ Except.error (RejectReason.blockedOperation op)) := by
  constructor
  · intro hw
    have hsome : ((blockedOps gr).find? (fun op => containsWholeWord (strUpper sql) op)).isSome := by
      rw [List.find?_isSome]
      exact ⟨K, hK, hw⟩
    obtain ⟨Kf, hKf⟩ := Option.isSome_iff_exists.mp hsome
    have hmem := List.mem_of_find?_eq_some hKf
    have hprop : containsWholeWord (strUpper sql) Kf = true := List.find?_some hKf
    have hval : validate p gr sql = Except.error (RejectReason.blockedOperation Kf) := by
      simp [validate, hok, checkBlockedOperations, hKf]
    exact ⟨Kf, hval, hmem, hprop, fun huniq => huniq Kf hmem hprop⟩
  · intro hnone op hcontra
    have hcb : checkBlockedOperations gr sql = Option.none := by
      rw [checkBlockedOperations, List.find?_eq_none]
      intro x hx
      rw [hnone x hx]
      exact Bool.false_ne_true
    have hred : validate p gr sql =
        (match ensureReadOnly a with
         | Option.some k => Except.error (RejectReason.disallowedType k)
         | Option.none => Except.ok (applyGuardrails p gr (formatSql p sql))) := by
      simp [validate, hok, hcb]
    rcases hero : ensureReadOnly a with _ | k
    · rw [hero] at hred
      rw [hred] at hcontra
      simp at hcontra
    · rw [hero] at hred
      rw [hred] at hcontra
      simp at hcontra

/-- C1 witness: `DROP TABLE credit_train` is rejected with the
blocked-operation error naming `DROP`, while `SELECT DROPPED_FLAG FROM
credit_train` — where `DROP` occurs only inside a longer identifier — is
never rejected with a blocked-operation error. -/
theorem c1_denylist_word_boundary_witness :
    validate c1Parser defaultGuardrails "DROP TABLE credit_train" =
      Except.error (RejectReason.blockedOperation "DROP") ∧
    (∀ op, validate c1Parser defaultGuardrails "SELECT DROPPED_FLAG FROM credit_train" ≠
      Except.error (RejectReason.blockedOperation op)) := by
  constructor
  · obtain ⟨Kf, hval, _, _, himp⟩ :=
      (c1_denylist_word_boundary c1Parser defaultGuardrails "DROP TABLE credit_train" "DROP"
        c1Ast rfl (by decide)).1 (by decide)
    rwa [himp (by decide)] at hval
  · exact (c1_denylist_word_boundary c1Parser defaultGuardrails
      "SELECT DROPPED_FLAG FROM credit_train" "DROP" c1Ast rfl (by decide)).2 (by decide)

/-- C2. Denylist precedence and injection rejection: on any parseable input
whose text contains a denied keyword as a whole word — be it the root
statement itself or a second statement appended after a semicolon —
`validate` rejects with the blocked-operation error citing a denied
keyword occurring as a whole word, never with the disallowed-statement-kind
error and never accepting, because the denylist gate runs before the
statement-kind gate. -/
theorem c2_denylist_precedence (p : Parser) (gr : GuardrailsConfig) (sql K : String) (a : Ast)
    (hok : p.parse sql = ParseOutcome.ok a) (hK : K ∈ blockedOps gr)
    (hw : containsWholeWord (strUpper sql) K = true) :
    (∃ Kf, Kf ∈ blockedOps gr ∧ containsWholeWord (strUpper sql) Kf = true ∧
       validate p gr sql = Except.error (RejectReason.blockedOperation Kf)) ∧
    (∀ k, validate p gr sql ≠ Except.error (RejectReason.disallowedType k)) ∧
    (∀ s, validate p gr sql ≠ Except.ok s) := by
  have hsome : ((blockedOps gr).find? (fun op => containsWholeWord (strUpper sql) op)).isSome := by
    rw [List.find?_isSome]
    exact ⟨K, hK, hw⟩
  obtain ⟨Kf, hKf⟩ := Option.isSome_iff_exists.mp hsome
  have hmem := List.mem_of_find?_eq_some hKf
  have hprop : containsWholeWord (strUpper sql) Kf = true := List.find?_some hKf
  have hval : validate p gr sql = Except.error (RejectReason.blockedOperation Kf) := by
    simp [validate, hok, checkBlockedOperations, hKf]
  refine ⟨⟨Kf, hmem, hprop, hval⟩, fun k hk => ?_, fun s hs => ?_⟩
  · rw [hval] at hk
    simp at hk
  · rw [hval] at hs
    simp at hs

/-- C2 witness: the classic stacked-statement injection is rejected by the
denylist gate (citing a denied keyword present as a whole word — here
`DROP`), not by the statement-kind gate, and is not accepted. -/
theorem c2_denylist_precedence_witness :
    (∃ Kf, Kf ∈ blockedOps defaultGuardrails ∧
       containsWholeWord (strUpper "SELECT * FROM t WHERE x = 1; DROP TABLE t; --") Kf = true ∧
       validate c2Parser defaultGuardrails "SELECT * FROM t WHERE x = 1; DROP TABLE t; --" =
         Except.error (RejectReason.blockedOperation Kf)) ∧
    (∀ k, validate c2Parser defaultGuardrails "SELECT * FROM t WHERE x = 1; DROP TABLE t; --" ≠
       Except.error (RejectReason.disallowedType k)) ∧
    (∀ s, validate c2Parser defaultGuardrails "SELECT * FROM t WHERE x = 1; DROP TABLE t; --" ≠
       Except.ok s) :=
  c2_denylist_precedence c2Parser defaultGuardrails
    "SELECT * FROM t WHERE x = 1; DROP TABLE t; --" "DROP" c2Ast rfl (by decide) (by decide)

/-- The retry loop never performs more cycles than its attempt budget. -/
theorem retryTrace_length_le (rt : Runtime) (question : String) :
    ∀ fuel sql, (retryTrace rt question fuel sql).length ≤ fuel := by
  intro fuel
  induction fuel with
  | zero => intro sql; simp [retryTrace]
  | succ k ih =>
      intro sql
      rcases h : attemptOnce rt sql with e | rows
      · cases k with
        | zero => simp [retryTrace, h]
        | succ k2 =>
            have hstep : retryTrace rt question (Nat.succ (Nat.succ k2)) sql =
                sql :: retryTrace rt question (Nat.succ k2) (rt.correct sql e question) := by
              simp [retryTrace, h]
            rw [hstep]
            exact Nat.succ_le_succ (ih (rt.correct sql e question))
      · simp [retryTrace, h]

/-- If every validate/execute cycle fails, the loop runs through its whole
fuel, and the loop result is the aggregated error built from the loop-wide
attempt budget and the error of the last cycle performed. -/
theorem retryLoop_allFail (rt : Runtime) (question : String) (maxRetries : Nat)
    (hfail : ∀ s, ∃ e, attemptOnce rt s = Except.error e) :
    ∀ fuel sql lastError, 0 < fuel →
      (retryTrace rt question fuel sql).length = fuel ∧
      ∃ sLast e, (retryTrace rt question fuel sql).getLast? = Option.some sLast ∧
        attemptOnce rt sLast = Except.error e ∧
        retryLoop rt question maxRetries fuel sql lastError =
          Except.error (finalMsg maxRetries (Option.some e)) := by
  intro fuel
  induction fuel with
  | zero => intro sql lastError hpos; exact absurd hpos (by decide)
  | succ k ih =>
      intro sql lastError _
      obtain ⟨e, he⟩ := hfail sql
      cases k with
      | zero =>
          refine ⟨by simp [retryTrace, he], sql, e, by simp [retryTrace, he], he, ?_⟩
          simp [retryLoop, he]
      | succ k2 =>
          obtain ⟨ihLen, sLast, e9, ihLast, ihAtt, ihLoop⟩ :=
            ih (rt.correct sql e question) (Option.some e) (Nat.succ_pos k2)
          have hstep : retryTrace rt question (Nat.succ (Nat.succ k2)) sql =
              sql :: retryTrace rt question (Nat.succ k2) (rt.correct sql e question) := by
            simp [retryTrace, he]
          have hloop : retryLoop rt question maxRetries (Nat.succ (Nat.succ k2)) sql lastError =
              retryLoop rt question maxRetries (Nat.succ k2) (rt.correct sql e question)
                (Option.some e) := by
            simp [retryLoop, he]
          have hne : retryTrace rt question (Nat.succ k2) (rt.correct sql e question) ≠ [] := by
            intro hnil
            rw [hnil] at ihLen
            exact Nat.succ_ne_zero k2 ihLen.symm
          refine ⟨?_, sLast, e9, ?_, ihAtt, ?_⟩
          · rw [hstep]
            simp [ihLen]
          · rw [hstep]
            rcases hcons : retryTrace rt question (Nat.succ k2) (rt.correct sql e question) with
              _ | ⟨b, t⟩
            · exact absurd hcons hne
            · rw [hcons] at ihLast
              exact ihLast
          · rw [hloop]
            exact ihLoop

/-- C4. Retry termination and final error: for every initial statement,
question and collaborators (validator, executor, corrector), if every
validate/execute cycle fails then `_execute_with_retry` with budget
`max_retries` (its default is 3) performs exactly `max_retries` cycles,
never more than `max_retries` cycles in any case, and terminates by
raising the single aggregated error naming the attempt count and the last
underlying error. -/
theorem c4_retry_termination (rt : Runtime) (question sql : String) (n : Nat) (hn : 0 < n)
    (hfail : ∀ s, ∃ e, attemptOnce rt s = Except.error e) :
    (retryTrace rt question n sql).length = n ∧
    (∀ m s0, (retryTrace rt question m s0).length ≤ m) ∧
    ∃ sLast e, (retryTrace rt question n sql).getLast? = Option.some sLast ∧
      attemptOnce rt sLast = Except.error e ∧
      executeWithRetry rt sql question n = Except.error (finalMsg n (Option.some e)) := by
  obtain ⟨hlen, sLast, e, hlast, hatt, hloop⟩ :=
    retryLoop_allFail rt question n hfail n sql Option.none hn
  exact ⟨hlen, fun m s0 => retryTrace_length_le rt question m s0, sLast, e, hlast, hatt, hloop⟩

/-- C4 witness: with the always-failing generator and the default budget of
3 attempts, the loop runs exactly 3 cycles and raises the aggregated
error naming the attempt count and the last error. -/
theorem c4_retry_termination_witness :
    ((retryTrace c4Runtime "pergunta" 3 "BAD SQL").length = 3 ∧
     (∀ m s0, (retryTrace c4Runtime "pergunta" m s0).length ≤ m) ∧
     ∃ sLast e, (retryTrace c4Runtime "pergunta" 3 "BAD SQL").getLast? = Option.some sLast ∧
       attemptOnce c4Runtime sLast = Except.error e ∧
       executeWithRetry c4Runtime "BAD SQL" "pergunta" 3 =
         Except.error (finalMsg 3 (Option.some e))) ∧
    executeWithRetry c4Runtime "BAD SQL" "pergunta" 3 =
      Except.error "Falha após 3 tentativas. Último erro: invalid SQL" :=
  ⟨c4_retry_termination c4Runtime "pergunta" "BAD SQL" 3 (by decide)
      (fun _ => ⟨"invalid SQL", rfl⟩), rfl⟩

mutual

/-- On tuple-free input, the normalizer leaves no `Decimal` behind. -/
theorem convert_noDecimal : ∀ v, tupleFree v = true → hasDecimal (convertDecimalsToFloat v) = false
  | PyVal.dec _, _ => rfl
  | PyVal.dict es, h => convertEntries_noDecimal es h
  | PyVal.list xs, h => convertElems_noDecimal xs h
  | PyVal.tuple _, h => Bool.noConfusion h
  | PyVal.flt _, _ => rfl
  | PyVal.intV _, _ => rfl
  | PyVal.strV _, _ => rfl
  | PyVal.boolV _, _ => rfl
  | PyVal.noneV, _ => rfl

theorem convertEntries_noDecimal :
    ∀ es, tupleFreeEntries es = true → hasDecimalEntries (convertEntries es) = false
  | [], _ => rfl
  | (_, v) :: rest, h => by
      have hh : (tupleFree v && tupleFreeEntries rest) = true := h
      rw [Bool.and_eq_true] at hh
      show (hasDecimal (convertDecimalsToFloat v) || hasDecimalEntries (convertEntries rest)) = false
      rw [convert_noDecimal v hh.1, convertEntries_noDecimal rest hh.2]
      rfl

theorem convertElems_noDecimal :
    ∀ xs, tupleFreeElems xs = true → hasDecimalElems (convertElems xs) = false
  | [], _ => rfl
  | v :: rest, h => by
      have hh : (tupleFree v && tupleFreeElems rest) = true := h
      rw [Bool.and_eq_true] at hh
      show (hasDecimal (convertDecimalsToFloat v) || hasDecimalElems (convertElems rest)) = false
      rw [convert_noDecimal v hh.1, convertElems_noDecimal rest hh.2]
      rfl

end

mutual

/-- On tuple-free input, the source normalizer coincides with the
structure-preserving transform the spec describes. -/
theorem convert_eq_erase : ∀ v, tupleFree v = true → convertDecimalsToFloat v = eraseDecimals v
  | PyVal.dec _, _ => rfl
  | PyVal.dict es, h => congrArg PyVal.dict (convertEntries_eq_erase es h)
  | PyVal.list xs, h => congrArg PyVal.list (convertElems_eq_erase xs h)
  | PyVal.tuple _, h => Bool.noConfusion h
  | PyVal.flt _, _ => rfl
  | PyVal.intV _, _ => rfl
  | PyVal.strV _, _ => rfl
  | PyVal.boolV _, _ => rfl
  | PyVal.noneV, _ => rfl

theorem convertEntries_eq_erase :
    ∀ es, tupleFreeEntries es = true → convertEntries es = eraseEntries es
  | [], _ => rfl
  | (k, v) :: rest, h => by
      have hh : (tupleFree v && tupleFreeEntries rest) = true := h
      rw [Bool.and_eq_true] at hh
      show (k, convertDecimalsToFloat v) :: convertEntries rest = (k, eraseDecimals v) :: eraseEntries rest
      rw [convert_eq_erase v hh.1, convertEntries_eq_erase rest hh.2]

theorem convertElems_eq_erase :
    ∀ xs, tupleFreeElems xs = true → convertElems xs = eraseElems xs
  | [], _ => rfl
  | v :: rest, h => by
      have hh : (tupleFree v && tupleFreeElems rest) = true := h
      rw [Bool.and_eq_true] at hh
      show convertDecimalsToFloat v :: convertElems rest = eraseDecimals v :: eraseElems rest
      rw [convert_eq_erase v hh.1, convertElems_eq_erase rest hh.2]

end

mutual

/-- On decimal-free input the normalizer is the identity. -/
theorem convert_id_of_noDecimal : ∀ v, hasDecimal v = false → convertDecimalsToFloat v = v
  | PyVal.dec _, h => Bool.noConfusion h
  | PyVal.dict es, h => congrArg PyVal.dict (convertEntries_id_of_noDecimal es h)
  | PyVal.list xs, h => congrArg PyVal.list (convertElems_id_of_noDecimal xs h)
  | PyVal.tuple _, _ => rfl
  | PyVal.flt _, _ => rfl
  | PyVal.intV _, _ => rfl
  | PyVal.strV _, _ => rfl
  | PyVal.boolV _, _ => rfl
  | PyVal.noneV, _ => rfl

theorem convertEntries_id_of_noDecimal :
    ∀ es, hasDecimalEntries es = false → convertEntries es = es
  | [], _ => rfl
  | (k, v) :: rest, h => by
      have hh : (hasDecimal v || hasDecimalEntries rest) = false := h
      rw [Bool.or_eq_false_iff] at hh
      show (k, convertDecimalsToFloat v) :: convertEntries rest = (k, v) :: rest
      rw [convert_id_of_noDecimal v hh.1, convertEntries_id_of_noDecimal rest hh.2]

theorem convertElems_id_of_noDecimal :
    ∀ xs, hasDecimalElems xs = false → convertElems xs = xs
  | [], _ => rfl
  | v :: rest, h => by
      have hh : (hasDecimal v || hasDecimalElems rest) = false := h
      rw [Bool.or_eq_false_iff] at hh
      show convertDecimalsToFloat v :: convertElems rest = v :: rest
      rw [convert_id_of_noDecimal v hh.1, convertElems_id_of_noDecimal rest hh.2]

end

/-- C8. Normalizer correctness and totality: on every value built from
mappings, lists, `Decimal` leaves and other plain leaves (no tuple-like
container), `_convert_decimals_to_float` — a total function by
construction — leaves no `Decimal` at any depth, equals the
structure-preserving spec transform `eraseDecimals` (same keys in the same
order, same sequence lengths and order, every `Decimal` leaf replaced by
its floating-point value, every other leaf unchanged), and is the identity
on decimal-free input. -/
theorem c8_normalizer_correct (v : PyVal) (h : tupleFree v = true) :
    hasDecimal (convertDecimalsToFloat v) = false ∧
    convertDecimalsToFloat v = eraseDecimals v ∧
    (hasDecimal v = false → convertDecimalsToFloat v = v) :=
  ⟨convert_noDecimal v h, convert_eq_erase v h, fun h0 => convert_id_of_noDecimal v h0⟩

/-- C8 witness: the nested example from the spec is tuple-free, the theorem
applies, and the normalizer converts it fully at every depth. -/
theorem c8_normalizer_correct_witness :
    tupleFree c8Example = true ∧
    (hasDecimal (convertDecimalsToFloat c8Example) = false ∧
     convertDecimalsToFloat c8Example = eraseDecimals c8Example ∧
     (hasDecimal c8Example = false → convertDecimalsToFloat c8Example = c8Example)) ∧
    convertDecimalsToFloat c8Example = c8Expected :=
  ⟨rfl, c8_normalizer_correct c8Example rfl, rfl⟩

/-- C10. Normalizer recursion boundary: `_convert_decimals_to_float`
recurses only into dict values and list elements — a value in any other
container (modelled by `tuple`) is returned unchanged, `Decimal` elements
included — and on input containing no dict, no list and no `Decimal` the
function is the identity. -/
theorem c10_normalizer_recursion_boundary :
    (∀ xs, convertDecimalsToFloat (PyVal.tuple xs) = PyVal.tuple xs) ∧
    (∀ v, dictListDecFree v = true → convertDecimalsToFloat v = v) :=
  ⟨fun _ => rfl,
   fun v h => by
     cases v with
     | dict es => exact Bool.noConfusion h
     | list xs => exact Bool.noConfusion h
     | dec q => exact Bool.noConfusion h
     | tuple xs => rfl
     | flt q => rfl
     | intV n => rfl
     | strV s => rfl
     | boolV b => rfl
     | noneV => rfl⟩

/-- C10 witness: a `Decimal` inside a tuple is not converted, and a plain
leaf maps to itself. -/
theorem c10_normalizer_recursion_boundary_witness :
    convertDecimalsToFloat (PyVal.tuple [PyVal.dec (3 / 2)]) = PyVal.tuple [PyVal.dec (3 / 2)] ∧
    convertDecimalsToFloat (PyVal.strV "SP") = PyVal.strV "SP" :=
  ⟨c10_normalizer_recursion_boundary.1 [PyVal.dec (3 / 2)],
   c10_normalizer_recursion_boundary.2 (PyVal.strV "SP") rfl⟩

/-- C5. Guardrail limit policy: on a parseable statement the guardrail
rewrite returns the input unchanged when the parsed statement already has
an explicit row limit (an explicit `LIMIT n` is never overridden), returns
it unchanged when it carries an aggregation signal (`GROUP BY` or a
`count`/`sum`/`avg`/`min`/`max` call marker), and otherwise appends a
`LIMIT` clause with the policy's default row cap, which defaults to 100. -/
theorem c5_guardrail_limit_policy (p : Parser) (gr : GuardrailsConfig) (sql : String) (a : Ast)
    (hok : p.parse sql = ParseOutcome.ok a) :
    (a.hasLimitArg = true → applyGuardrails p gr sql = sql) ∧
    (hasAggregation a = true → applyGuardrails p gr sql = sql) ∧
    (a.hasLimitArg = false → hasAggregation a = false →
      applyGuardrails p gr sql = rstripSemis sql ++ " LIMIT " ++ toString gr.defaultLimit) ∧
    defaultGuardrails.defaultLimit = 100 := by
  refine ⟨fun h1 => by simp [applyGuardrails, hok, h1],
    fun h2 => by simp [applyGuardrails, hok, h2],
    fun h1 h2 => by simp [applyGuardrails, hok, h1, h2], rfl⟩

/-- C5 witness: the default row cap of 100 is appended to an unlimited,
non-aggregated SELECT. -/
theorem c5_guardrail_limit_policy_witness :
    applyGuardrails c5Parser defaultGuardrails "SELECT * FROM credit_train" =
      "SELECT * FROM credit_train LIMIT 100" :=
  ((c5_guardrail_limit_policy c5Parser defaultGuardrails "SELECT * FROM credit_train" c5Ast
      rfl).2.2.1 rfl rfl).trans rfl

/-- C7. Empty-input rejection: on the empty string and on any
whitespace-only string — inputs on which the external parser yields no
statement — `validate` rejects with the syntax-gate rejection kind
(carrying the parser's message), not with `blockedOperation`, not with
`disallowedType`, and never accepts. -/
theorem c7_blank_input_syntax_rejection (p : Parser) (gr : GuardrailsConfig) (sql : String)
    (hblank : sql.data.all Char.isWhitespace = true)
    (hnoparse : ∀ a, p.parse sql ≠ ParseOutcome.ok a) :
    (∃ msg, validate p gr sql = Except.error (RejectReason.syntaxError msg)) ∧
    (∀ op, validate p gr sql ≠ Except.error (RejectReason.blockedOperation op)) ∧
    (∀ k, validate p gr sql ≠ Except.error (RejectReason.disallowedType k)) ∧
    (∀ s, validate p gr sql ≠ Except.ok s) := by
  rcases h : p.parse sql with a | _ | m | m
  · exact absurd h (hnoparse a)
  · have hv : validate p gr sql =
        Except.error (RejectReason.syntaxError "Erro ao validar SQL: Query SQL vazia ou inválida") := by
      simp [validate, h]
    exact ⟨⟨_, hv⟩, fun x hx => by rw [hv] at hx; simp at hx,
      fun k hk => by rw [hv] at hk; simp at hk,
      fun s hs => by rw [hv] at hs; simp at hs⟩
  · have hv : validate p gr sql =
        Except.error (RejectReason.syntaxError ("Erro de sintaxe SQL: " ++ m)) := by
      simp [validate, h]
    exact ⟨⟨_, hv⟩, fun x hx => by rw [hv] at hx; simp at hx,
      fun k hk => by rw [hv] at hk; simp at hk,
      fun s hs => by rw [hv] at hs; simp at hs⟩
  · have hv : validate p gr sql =
        Except.error (RejectReason.syntaxError ("Erro ao validar SQL: " ++ m)) := by
      simp [validate, h]
    exact ⟨⟨_, hv⟩, fun x hx => by rw [hv] at hx; simp at hx,
      fun k hk => by rw [hv] at hk; simp at hk,
      fun s hs => by rw [hv] at hs; simp at hs⟩

/-- C7 witness: a whitespace-only string is rejected by the syntax gate
and by no other gate. -/
theorem c7_blank_input_syntax_rejection_witness :
    (∃ msg, validate c7Parser defaultGuardrails "  \n\t " =
        Except.error (RejectReason.syntaxError msg)) ∧
    (∀ op, validate c7Parser defaultGuardrails "  \n\t " ≠
        Except.error (RejectReason.blockedOperation op)) ∧
    (∀ k, validate c7Parser defaultGuardrails "  \n\t " ≠
        Except.error (RejectReason.disallowedType k)) ∧
    (∀ s, validate c7Parser defaultGuardrails "  \n\t " ≠ Except.ok s) :=
  c7_blank_input_syntax_rejection c7Parser defaultGuardrails "  \n\t " (by decide)
    (fun _ h => ParseOutcome.noConfusion h)

/-- Concatenating two strings concatenates their character lists. -/
theorem strData_append (s t : String) : (s ++ t).data = s.data ++ t.data := rfl

/-- A word character never equals a non-word character. -/
theorem beq_false_of_wordChar_mismatch (a d : Char) (ha : isWordChar a = true)
    (hd : isWordChar d = false) : (a == d) = false := by
  rw [beq_eq_false_iff_ne]
  intro hEq
  rw [hEq] at ha
  rw [ha] at hd
  exact Bool.noConfusion hd

/-- A head match of an all-word-character pattern is insensitive to text
lying beyond a non-word character. -/
theorem headWordMatch_append (d : Char) (t : List Char) (hd : isWordChar d = false) :
    ∀ w s, (∀ c ∈ w, isWordChar c = true) → headWordMatch w (s ++ d :: t) = headWordMatch w s
  | [], [], _ => by
      show (!isWordChar d) = true
      rw [hd]
      rfl
  | [], _ :: _, _ => rfl
  | a :: w2, [], hw => by
      have hne : (a == d) = false :=
        beq_false_of_wordChar_mismatch a d (hw a (List.mem_cons_self a w2)) hd
      show ((a == d) && headWordMatch w2 t) = false
      rw [hne]
      rfl
  | a :: w2, e :: s2, hw => by
      show ((a == e) && headWordMatch w2 (s2 ++ d :: t)) = ((a == e) && headWordMatch w2 s2)
      rw [headWordMatch_append d t hd w2 s2 (fun c hc => hw c (List.mem_cons_of_mem a hc))]

/-- Scanning for a nonempty all-word-character pattern across a text that
continues with a non-word character `d` splits into a scan of the prefix
and a scan of the remainder. -/
theorem scan_append (a : Char) (w2 : List Char) (hw : ∀ c ∈ a :: w2, isWordChar c = true)
    (d : Char) (hd : isWordChar d = false) (t : List Char) :
    ∀ s prev, scanWholeWord (a :: w2) (s ++ d :: t) prev =
      (scanWholeWord (a :: w2) s prev || scanWholeWord (a :: w2) t (Option.some d))
  | [], prev => by
      have hne : (a == d) = false :=
        beq_false_of_wordChar_mismatch a d (hw a (List.mem_cons_self a w2)) hd
      show ((boundaryBefore prev && ((a == d) && headWordMatch w2 t)) ||
              scanWholeWord (a :: w2) t (Option.some d)) =
          ((boundaryBefore prev && false) || scanWholeWord (a :: w2) t (Option.some d))
      rw [hne]
      simp
  | c :: s2, prev => by
      have h1 : scanWholeWord (a :: w2) ((c :: s2) ++ d :: t) prev =
          ((boundaryBefore prev && headWordMatch (a :: w2) ((c :: s2) ++ d :: t)) ||
            scanWholeWord (a :: w2) (s2 ++ d :: t) (Option.some c)) := rfl
      rw [h1, headWordMatch_append d t hd (a :: w2) (c :: s2) hw,
        scan_append a w2 hw d hd t s2 (Option.some c), ← Bool.or_assoc]
      rfl

/-- The transform `s.rstrip(';')` splits the text into the kept prefix and a trailing run
of semicolons. -/
theorem rstrip_decomp (f : String) :
    ∃ semis, f.data = (rstripSemis f).data ++ semis ∧ ∀ c ∈ semis, c = ';' := by
  refine ⟨(f.data.reverse.takeWhile (fun c => c == ';')).reverse, ?_, ?_⟩
  · show f.data = (f.data.reverse.dropWhile (fun c => c == ';')).reverse ++
      (f.data.reverse.takeWhile (fun c => c == ';')).reverse
    rw [← List.reverse_append, List.takeWhile_append_dropWhile, List.reverse_reverse]
  · intro c hc
    rw [List.mem_reverse] at hc
    have := List.mem_takeWhile_imp hc
    simpa using this

/-- Stripping trailing semicolons cannot introduce a whole-word occurrence
of an all-word-character keyword. -/
theorem noDenied_rstrip (f : String) (a : Char) (w2 : List Char)
    (hall : ∀ c ∈ (a :: w2), isWordChar c = true)
    (h : scanWholeWord (a :: w2) (strUpper f).data Option.none = false) :
    scanWholeWord (a :: w2) (strUpper (rstripSemis f)).data Option.none = false := by
  obtain ⟨semis, hdec, hsem⟩ := rstrip_decomp f
  have hupper : (strUpper f).data =
      (strUpper (rstripSemis f)).data ++ semis.map Char.toUpper := by
    show f.data.map Char.toUpper =
      (rstripSemis f).data.map Char.toUpper ++ semis.map Char.toUpper
    rw [← List.map_append, ← hdec]
  have hsemU : ∀ c ∈ semis.map Char.toUpper, c = ';' := by
    intro c hc
    rcases List.mem_map.mp hc with ⟨x, hx, rfl⟩
    rw [hsem x hx]
    rfl
  rcases hU : semis.map Char.toUpper with _ | ⟨c, rest⟩
  · rw [hupper, hU, List.append_nil] at h
    exact h
  · have hc : c = ';' := hsemU c (by rw [hU]; exact List.mem_cons_self c rest)
    subst hc
    rw [hupper, hU,
      scan_append a w2 hall ';' (by decide) rest ((strUpper (rstripSemis f)).data)
        Option.none] at h
    exact (Bool.or_eq_false_iff.mp h).1

/-- If a denied keyword of the default configuration has no whole-word
occurrence in `f`, it has none in `f.rstrip(';') ++ " LIMIT 100"` either:
the appended clause starts with a non-word character and contains no
denied keyword. -/
theorem noDenied_after_default_append (f K : String)
    (hK : K ∈ blockedOps defaultGuardrails)
    (h : containsWholeWord (strUpper f) K = false) :
    containsWholeWord
      (strUpper (rstripSemis f ++ " LIMIT " ++ toString defaultGuardrails.defaultLimit)) K =
      false := by
  have hKfacts : (∃ a w2, K.data = a :: w2) ∧ (∀ c ∈ K.data, isWordChar c = true) ∧
      scanWholeWord K.data ("LIMIT 100").data (Option.some ' ') = false := by
    have hK9 : K = "DROP" ∨ K = "DELETE" ∨ K = "UPDATE" ∨ K = "INSERT" ∨ K = "CREATE" ∨
        K = "ALTER" ∨ K = "TRUNCATE" ∨ K = "GRANT" ∨ K = "REVOKE" := by
      have hb : blockedOps defaultGuardrails =
          ["DROP", "DELETE", "UPDATE", "INSERT", "CREATE", "ALTER", "TRUNCATE", "GRANT",
            "REVOKE"] := rfl
      rw [hb] at hK
      simpa using hK
    rcases hK9 with rfl | rfl | rfl | rfl | rfl | rfl | rfl | rfl | rfl <;>
      exact ⟨⟨_, _, rfl⟩, by decide, by decide⟩
  obtain ⟨⟨a, w2, hKd⟩, hall, hlim⟩ := hKfacts
  have hdata : (strUpper (rstripSemis f ++ " LIMIT " ++
      toString defaultGuardrails.defaultLimit)).data =
      (strUpper (rstripSemis f)).data ++ ' ' :: ("LIMIT 100").data := by
    show ((rstripSemis f ++ " LIMIT " ++ toString defaultGuardrails.defaultLimit).data.map
        Char.toUpper) = _
    rw [strData_append, strData_append, List.map_append, List.map_append, List.append_assoc]
    rfl
  show scanWholeWord K.data
    (strUpper (rstripSemis f ++ " LIMIT " ++ toString defaultGuardrails.defaultLimit)).data
    Option.none = false
  rw [hdata, hKd,
    scan_append a w2 (hKd ▸ hall) ' ' (by decide) ("LIMIT 100").data
      ((strUpper (rstripSemis f)).data) Option.none, Bool.or_eq_false_iff]
  constructor
  · exact noDenied_rstrip f a w2 (hKd ▸ hall) (by rw [← hKd]; exact h)
  · rw [← hKd]
    exact hlim

/-- C3. Acceptance invariant: whenever `validate` (under the default
guardrail policy and a well-behaved external parser) accepts an input and
returns the normalized statement `s`, then `s` parses, the root kind of
its parse is one of `select`, `union`, `with`, and `s` contains no denied
keyword as a whole word. -/
theorem c3_acceptance_invariant (p : Parser) (sql s : String)
    (hT : ParserTrust p)
    (hv : validate p defaultGuardrails sql = Except.ok s) :
    (∃ c, p.parse s = ParseOutcome.ok c ∧ allowedTypes.contains (strLower c.key) = true) ∧
    (∀ K, K ∈ blockedOps defaultGuardrails → containsWholeWord (strUpper s) K = false) := by
  rcases hp : p.parse sql with a | _ | m | m
  case noStatement => simp [validate, hp] at hv
  case parseError => simp [validate, hp] at hv
  case otherError => simp [validate, hp] at hv
  simp only [validate, hp] at hv
  have hcb : checkBlockedOperations defaultGuardrails sql = Option.none := by
    rcases hcb0 : checkBlockedOperations defaultGuardrails sql with _ | op
    · rfl
    · simp [hcb0] at hv
  simp only [hcb] at hv
  have hero : ensureReadOnly a = Option.none := by
    rcases hero0 : ensureReadOnly a with _ | k
    · rfl
    · simp [hero0] at hv
  simp only [hero] at hv
  have hs : s = applyGuardrails p defaultGuardrails (formatSql p sql) := (Except.ok.inj hv).symm
  have hcb2 : (blockedOps defaultGuardrails).find?
      (fun op => containsWholeWord (strUpper sql) op) = Option.none := hcb
  have hnodenied : ∀ K ∈ blockedOps defaultGuardrails,
      containsWholeWord (strUpper sql) K = false := by
    intro K hKmem
    exact Bool.eq_false_iff.mpr (List.find?_eq_none.mp hcb2 K hKmem)
  have hkey : allowedTypes.contains (strLower a.key) = true := by
    rcases hco : allowedTypes.contains (strLower a.key) with _ | _
    · rw [ensureReadOnly] at hero
      simp only [hco] at hero
      exact Option.noConfusion hero
    · rfl
  have hfacts : ∃ b, p.parse (formatSql p sql) = ParseOutcome.ok b ∧
      strLower b.key = strLower a.key ∧
      (∀ K ∈ blockedOps defaultGuardrails,
        containsWholeWord (strUpper (formatSql p sql)) K = false) := by
    rcases hpr : a.prettyOk with _ | _
    · have hfid : formatSql p sql = sql := by
        simp [formatSql, hp, hpr]
      exact ⟨a, by rw [hfid]; exact hp, rfl, by rw [hfid]; exact hnodenied⟩
    · have hfpretty : formatSql p sql = a.pretty := by
        simp [formatSql, hp, hpr]
      obtain ⟨b, hpb, hbkey⟩ := hT.prettyRoundTrip sql a hp hpr
      refine ⟨b, by rw [hfpretty]; exact hpb, hbkey, ?_⟩
      intro K hKmem
      rw [hfpretty]
      exact hT.prettyNoNewWord sql a K hp hpr (hnodenied K hKmem)
  obtain ⟨b, hpb, hbkey, hfnodenied⟩ := hfacts
  rcases hcond : (!b.hasLimitArg && !hasAggregation b) with _ | _
  · have hsval : s = formatSql p sql := by
      rw [hs]
      simp [applyGuardrails, hpb, hcond]
    constructor
    · exact ⟨b, by rw [hsval]; exact hpb, by rw [hbkey]; exact hkey⟩
    · intro K hKmem
      rw [hsval]
      exact hfnodenied K hKmem
  · have hsval : s = rstripSemis (formatSql p sql) ++ " LIMIT " ++
        toString defaultGuardrails.defaultLimit := by
      rw [hs]
      simp [applyGuardrails, hpb, hcond]
    constructor
    · obtain ⟨c, hpc, hckey⟩ := hT.limitAppendParses (formatSql p sql) b hpb
      exact ⟨c, by rw [hsval]; exact hpc, by rw [hckey, hbkey]; exact hkey⟩
    · intro K hKmem
      rw [hsval]
      exact noDenied_after_default_append (formatSql p sql) K hKmem (hfnodenied K hKmem)

/-- The C3 witness oracle satisfies the trusted-parser contract. -/
theorem c3Parser_trust : ParserTrust c3Parser := by
  refine ⟨?_, ?_, ?_⟩
  · intro s a h hpk
    cases ParseOutcome.ok.inj h
    exact Bool.noConfusion hpk
  · intro s a K h hpk
    cases ParseOutcome.ok.inj h
    exact Bool.noConfusion hpk
  · intro f b h
    cases ParseOutcome.ok.inj h
    exact ⟨_, rfl, rfl⟩

/-- C3 witness: a clean SELECT is accepted unchanged, and the accepted
statement parses with an allowed root kind and carries no denied keyword. -/
theorem c3_acceptance_invariant_witness :
    (∃ c, c3Parser.parse "SELECT * FROM credit_train" = ParseOutcome.ok c ∧
       allowedTypes.contains (strLower c.key) = true) ∧
    (∀ K, K ∈ blockedOps defaultGuardrails →
       containsWholeWord (strUpper "SELECT * FROM credit_train") K = false) :=
  c3_acceptance_invariant c3Parser "SELECT * FROM credit_train" "SELECT * FROM credit_train"
    c3Parser_trust rfl

/-- C6 counterexample: on the syntactically valid SELECT
`SELECT 1 -- note`, applying the guardrail rewrite twice differs from
applying it once (the appended `LIMIT` clause is swallowed by the trailing
line comment, so the second application appends another one). -/
theorem c6_rewrite_idempotence_counterexample :
    applyGuardrails c6Parser defaultGuardrails
        (applyGuardrails c6Parser defaultGuardrails "SELECT 1 -- note") ≠
      applyGuardrails c6Parser defaultGuardrails "SELECT 1 -- note" := by
  decide

/-- C6 (amended). Rewrite idempotence holds for every statement whose
rewritten form, when it re-parses, is seen to carry an explicit limit or
an aggregation signal (with `sqlglot` this covers every syntactically
valid SELECT that does not end in a comment swallowing the appended
clause): the guardrail rewrite applied twice equals the rewrite applied
once. -/
theorem c6_rewrite_idempotent_amended (p : Parser) (gr : GuardrailsConfig) (x : String)
    (h : ∀ b, p.parse (applyGuardrails p gr x) = ParseOutcome.ok b →
       b.hasLimitArg = true ∨ hasAggregation b = true) :
    applyGuardrails p gr (applyGuardrails p gr x) = applyGuardrails p gr x := by
  have hgen : ∀ y, (∀ b, p.parse y = ParseOutcome.ok b →
      b.hasLimitArg = true ∨ hasAggregation b = true) → applyGuardrails p gr y = y := by
    intro y hy
    rcases hb : p.parse y with b | _ | m | m
    · rcases hy b hb with h1 | h1
      · simp [applyGuardrails, hb, h1]
      · simp [applyGuardrails, hb, h1]
    · simp [applyGuardrails, hb]
    · simp [applyGuardrails, hb]
    · simp [applyGuardrails, hb]
  exact hgen (applyGuardrails p gr x) h

/-- C6 amended witness: on a SELECT whose parse carries a limit, the
rewrite is idempotent (indeed the identity). -/
theorem c6_rewrite_idempotent_amended_witness :
    applyGuardrails c6wParser defaultGuardrails
        (applyGuardrails c6wParser defaultGuardrails "SELECT 1 LIMIT 5") =
      applyGuardrails c6wParser defaultGuardrails "SELECT 1 LIMIT 5" :=
  c6_rewrite_idempotent_amended c6wParser defaultGuardrails "SELECT 1 LIMIT 5"
    (fun b hb => by cases ParseOutcome.ok.inj hb; exact Or.inl rfl)

/-- C9. Caller-facing result fields: on every successful run of
`query_database`, the returned metadata's `sql` field is the initially
generated statement (the corrected statements produced inside the retry
loop and the validator's rewritten form never reach it), `row_count` is
the length of the full result, `data` is exactly the first 100 normalized
rows (hence holds at most 100 entries), and `truncated` holds iff the
full result length exceeds 100. -/
theorem c9_query_metadata (gen : String → String) (rt : Runtime) (question : String)
    (rows : List PyVal)
    (h : executeWithRetry rt (gen question) question 3 = Except.ok rows) :
    ∃ md, queryDatabase gen rt question = Except.ok md ∧
      md.sql = gen question ∧
      md.rowCount = rows.length ∧
      md.data = (convertElems rows).take 100 ∧
      md.data.length ≤ 100 ∧
      (md.truncated = true ↔ 100 < rows.length) := by
  refine ⟨⟨gen question, (convertElems rows).take 100, rows.length,
      decide (100 < rows.length)⟩, ?_, rfl, rfl, rfl, ?_, ?_⟩
  · simp [queryDatabase, h]
  · simpa using List.length_take_le 100 (convertElems rows)
  · simp

/-- C9 witness: the query succeeds on the corrected second attempt, yet the
metadata reports the initially generated `SQL0`, the full row count, the
normalized rows (the `Decimal` became a float) and no truncation. -/
theorem c9_query_metadata_witness :
    (∃ md, queryDatabase c9Gen c9Runtime "pergunta" = Except.ok md ∧
      md.sql = "SQL0" ∧
      md.rowCount = 1 ∧
      md.data = (convertElems [c9Row]).take 100 ∧
      md.data.length ≤ 100 ∧
      (md.truncated = true ↔ 100 < 1)) ∧
    (convertElems [c9Row]).take 100 = [PyVal.dict [("taxa", PyVal.flt (17 / 200))]] :=
  ⟨c9_query_metadata c9Gen c9Runtime "pergunta" [c9Row] rfl, rfl⟩

end Gateway

